import Mathlib

/-!
Shallow embedding of the Pan3D `DatasetBuilder` state-synchronization logic
(`src/pan3d/dataset_builder.py`) together with the pieces of
`src/pan3d/dataset_viewer.py` it shares, and proofs of the specified
properties about it.

Modelling conventions:
* Python `None` becomes `Option.none`; Python truthiness of a string state
  field (`None` and `""` are falsy) is `strTruthy`.
* Python floats that are only compared and copied (coordinate ranges and
  slice bounds) are modelled as `ℚ`; these comparisons are exact on floats.
* Python `str.isnumeric` is modelled over the ASCII fragment, where it holds
  exactly for non-empty all-decimal-digit strings.
* Python `round` on a float is round-half-to-even, which is exact for the
  dyadic quotients `total_bytes / 1024^k` arising in the byte-size ladder;
  `pyRound` implements round-half-to-even on natural quotients.
* The trame reactive state and the builder's own attributes (`self.dataset`,
  `self.algorithm`) are flattened into one `Builder` structure; purely
  presentational data that no modelled operation ever reads back
  (coordinate `attrs` metadata, CSS, plotter contents) is not modelled.
* External effects (xarray dataset opening, the pvxarray mesh source) are an
  explicit `Env` parameter; Python exceptions that escape a modelled
  function are `Except.error`.
-/

/-- Python truthiness of an optional string: `None` and `""` are falsy. -/
def strTruthy : Option String → Bool
  | none => false
  | some s => s ≠ ""

/-- Python truthiness of a number: zero is falsy. -/
def numTruthy (q : ℚ) : Bool := q ≠ 0

/-- Lower-case a string character-wise (Python `str.lower` on ASCII). -/
def lowerStr (s : String) : String := ⟨s.data.map Char.toLower⟩

/-- `pfxOf n h` holds when `n` is a leading segment of `h`. -/
def pfxOf : List Char → List Char → Bool
  | [], _ => true
  | _ :: _, [] => false
  | a :: as, b :: bs => a == b && pfxOf as bs

/-- `substrOf n h`: `n` occurs contiguously inside `h` (Python `in` on str). -/
def substrOf (n : List Char) : List Char → Bool
  | [] => pfxOf n []
  | c :: t => pfxOf n (c :: t) || substrOf n t

/-- Python `str.isnumeric` restricted to ASCII input: non-empty and all
decimal digits. -/
def pyIsNumeric (s : String) : Bool := s ≠ "" && s.data.all Char.isDigit

/-- Numeric value of an all-digit string, as `float(value)` yields on it. -/
def parseDigits (s : String) : ℚ :=
  (s.data.foldl (fun acc c => 10 * acc + (c.toNat - '0'.toNat)) 0 : ℕ)

/-- Python `round` (round-half-to-even) of the exact quotient `n / d`. -/
def pyRound (n d : ℕ) : ℕ :=
  let q := n / d
  let r := n % d
  if 2 * r < d then q
  else if d < 2 * r then q + 1
  else if q % 2 = 0 then q else q + 1

/-- One entry of `state.da_coordinates`: per-dimension metadata plus the
slice triple, as built in `DatasetBuilder.set_data_array_active_name`
(the presentational `attrs` list is not modelled). -/
structure Coord where
  name : String
  size : ℕ
  lo : ℚ
  hi : ℚ
  start : ℚ
  stop : ℚ
  step : ℚ
  deriving DecidableEq, Repr

/-- The three slice fields the UI passes to the slice-edit handler
(`'start' | 'stop' | 'step'` in `ui/coordinate_configure.py`). -/
inductive SliceAttr | start | stop | step
  deriving DecidableEq, Repr

/-- The four logical rendering axes. -/
inductive Axis | x | y | z | t
  deriving DecidableEq, Repr

/-- One dimension of a data array: name, length and coordinate extrema
(`numeric = false` models the `TypeError` fallback that uses index 0 and
the size instead of the coordinate values). -/
structure DimInfo where
  name : String
  size : ℕ
  numeric : Bool
  cmin : ℚ
  cmax : ℚ
  deriving DecidableEq, Repr

/-- One data variable of a dataset. -/
structure DataVar where
  name : String
  dims : List DimInfo
  deriving DecidableEq, Repr

/-- An opened xarray dataset, as far as the builder reads it. -/
structure Dataset where
  data_vars : List DataVar
  attrs : List (String × String)
  deriving DecidableEq, Repr

/-- Look a data variable up by name (`self.dataset[name]`). -/
def Dataset.lookupVar (ds : Dataset) (name : String) : Option DataVar :=
  ds.data_vars.find? (fun v => v.name == name)

/-- The mutable fields of the `PyVistaXarraySource` the builder writes. -/
structure Algorithm where
  data_array : Option String
  slicing : List (String × ℚ × ℚ × ℚ)
  x : Option String
  y : Option String
  z : Option String
  t : Option String
  time_index : ℤ
  deriving DecidableEq, Repr

def Algorithm.init : Algorithm :=
  { data_array := none, slicing := [], x := none, y := none, z := none
    t := none, time_index := 0 }

/-- The builder's observable state: trame state keys plus its own
attributes, flattened. -/
structure Builder where
  dataset_path : Option String
  dataset : Option Dataset
  algorithm : Algorithm
  da_active : Option String
  da_vars : List String
  da_attrs : List (String × String)
  da_coordinates : List Coord
  da_x : Option String
  da_y : Option String
  da_z : Option String
  da_t : Option String
  da_t_index : ℤ
  da_t_max : ℤ
  da_size : Option String
  slicing : List (String × ℚ × ℚ × ℚ)
  dataset_ready : Bool
  no_da_vars : Bool
  ui_loading : Bool
  ui_main_drawer : Bool
  ui_axis_drawer : Bool
  ui_expanded_coordinates : List String
  ui_error_message : Option String
  ui_action_message : Option String
  ui_action_name : Option String
  ui_selected_config_file : Option String
  ui_more_info_link : Option String
  ui_unapplied_changes : Bool
  deriving DecidableEq, Repr

/-- Read the state key behind one axis (`state.da_x`, …). -/
def Builder.axisVal (s : Builder) : Axis → Option String
  | .x => s.da_x
  | .y => s.da_y
  | .z => s.da_z
  | .t => s.da_t

/-- Write the state key behind one axis. -/
def Builder.setAxis (s : Builder) : Axis → Option String → Builder
  | .x, v => { s with da_x := v }
  | .y, v => { s with da_y := v }
  | .z, v => { s with da_z := v }
  | .t, v => { s with da_t := v }

/-- Update the first list element satisfying `p` by `f`, keeping the rest
(models `self.state.da_coordinates[coord_i] = coordinate` after locating the
first name match). -/
def updateFirst (p : Coord → Bool) (f : Coord → Coord) : List Coord → List Coord
  | [] => []
  | c :: cs => if p c then f c :: cs else c :: updateFirst p f cs

/-- `DatasetBuilder.coordinate_change_slice` (dataset_builder.py lines
115-136): commit `value` into the named coordinate's slice field when the
string is numeric and the parsed value is inside the legal bounds for that
field; otherwise leave everything as it was. -/
def coordinate_change_slice (s : Builder) (coordinate_name : String)
    (attr : SliceAttr) (value : String) : Builder :=
  if pyIsNumeric value then
    if (s.da_coordinates.find? (fun c => c.name == coordinate_name)).isSome then
      let v : ℚ := parseDigits value
      let upd : Coord → Coord := fun c =>
        match attr with
        | .step => if 0 < v ∧ v < (c.size : ℚ) then { c with step := v } else c
        | .start => if c.lo ≤ v ∧ v ≤ c.hi then { c with start := v } else c
        | .stop => if c.lo ≤ v ∧ v ≤ c.hi then { c with stop := v } else c
      { s with da_coordinates :=
          updateFirst (fun c => c.name == coordinate_name) upd s.da_coordinates }
    else s
  else s

/-- Modelled from the spec: the `coordinate_auto_selection` keyword table
lives in `pan3d/utils.py`, which is not among the provided sources; §4.1.1
of the spec gives the per-axis keyword lists X:{x,i,lon,len},
Y:{y,j,lat,width}, Z:{z,k,depth,height}, T:{t,time}, scanned in axis
declaration order. -/
def axisKeywords : Axis → List String
  | .x => ["x", "i", "lon", "len"]
  | .y => ["y", "j", "lat", "width"]
  | .z => ["z", "k", "depth", "height"]
  | .t => ["t", "time"]

/-- The keyword table as the ordered dict `auto_select_coordinates`
iterates. -/
def coordinate_auto_selection : List (Axis × List String) :=
  [ (.x, axisKeywords .x),
    (.y, axisKeywords .y),
    (.z, axisKeywords .z),
    (.t, axisKeywords .t) ]

/-- The keyword test of `auto_select_coordinates`: a single-letter keyword
must equal the lower-cased dimension name, a longer keyword must occur
inside it. -/
def axisKeywordMatch (kws : List String) (coordName : String) : Bool :=
  let nm := lowerStr coordName
  kws.any fun accepted =>
    (accepted.length == 1 && accepted == nm) ||
    (decide (accepted.length > 1) && substrOf accepted.data nm.data)

/-- One `state_update[axis] = name_match[0]` step of the inner axis scan:
skip axes whose live state value is truthy, record the coordinate's name
for matching axes (overwriting an earlier coordinate's entry, since the
live state is only updated after the whole scan). -/
def autoEntry (s : Builder) (c : Coord) (upd : Axis → Option String)
    (axkw : Axis × List String) : Axis → Option String :=
  if ¬ strTruthy (s.axisVal axkw.1) then
    if axisKeywordMatch axkw.2 c.name then
      fun a => if a = axkw.1 then some c.name else upd a
    else upd
  else upd

/-- The inner axis scan for one coordinate. -/
def autoUpdStep (s : Builder) (upd : Axis → Option String) (c : Coord) :
    Axis → Option String :=
  coordinate_auto_selection.foldl (autoEntry s c) upd

/-- The batched `state_update` dict built by `auto_select_coordinates`. -/
def autoUpd (s : Builder) : Axis → Option String :=
  s.da_coordinates.foldl (autoUpdStep s) (fun _ => none)

/-- `self.state.update(state_update)`: write every recorded axis. -/
def applyAxisUpd (s : Builder) (upd : Axis → Option String) : Builder :=
  [Axis.x, Axis.y, Axis.z, Axis.t].foldl
    (fun st a =>
      match upd a with
      | some v => st.setAxis a (some v)
      | none => st)
    s

/-- `DatasetBuilder.auto_select_coordinates` (dataset_builder.py lines
318-338): bail out when any axis state key is truthy; otherwise build the
batched `state_update` dict by scanning coordinates and axes, then apply
it. -/
def auto_select_coordinates (s : Builder) : Builder :=
  if strTruthy s.da_x || strTruthy s.da_y || strTruthy s.da_z
      || strTruthy s.da_t then s
  else applyAxisUpd s (autoUpd s)

/-- One iteration of the coordinate-record rebuild loop of
`set_data_array_active_name`: append the dimension's record (falling back
to index bounds `0 .. size` for non-numeric coordinates, as the
`TypeError` handler does) and mark it expanded. -/
def buildCoordStep (st : Builder) (d : DimInfo) : Builder :=
  let lo : ℚ := if d.numeric then d.cmin else 0
  let hi : ℚ := if d.numeric then d.cmax else (d.size : ℚ)
  { st with
    da_coordinates := st.da_coordinates ++
      [{ name := d.name, size := d.size, lo := lo, hi := hi,
         start := lo, stop := hi, step := 1 }],
    ui_expanded_coordinates := st.ui_expanded_coordinates ++ [d.name] }

/-- The UI-field writes at the head of the rebuild branch of
`set_data_array_active_name`. -/
def resetUiForActive (s : Builder) : Builder :=
  { s with ui_axis_drawer := true, ui_error_message := none,
           ui_expanded_coordinates := [], da_coordinates := [] }

/-- The body of `set_data_array_active_name` after the active-name write:
with a dataset and a name present, rebuild the coordinate records from the
array's dimensions and run auto-axis-selection; looking up a name the
dataset lacks raises. -/
def activeNameCore (s : Builder) (da_active : Option String) :
    Except String Builder :=
  match s.dataset, da_active with
  | none, _ => .ok s
  | some _, none => .ok s
  | some ds, some name =>
    match ds.lookupVar name with
    | none => .error ("KeyError: " ++ name)
    | some da =>
      .ok (auto_select_coordinates
        (da.dims.foldl buildCoordStep (resetUiForActive s)))

/-- `DatasetBuilder.set_data_array_active_name` (lines 206-254): record the
new active name, then rebuild coordinates and auto-select axes. -/
def set_data_array_active_name (s : Builder) (da_active : Option String) :
    Except String Builder :=
  activeNameCore
    (if da_active ≠ s.da_active then { s with da_active := da_active } else s)
    da_active

/-- Python truthiness of the optional dataset: xarray's `Dataset.__len__`
counts data variables, so a present but variable-less dataset is falsy. -/
def dsTruthy : Option Dataset → Bool
  | none => false
  | some ds => ds.data_vars ≠ []

/-- The keyword arguments of `set_data_array_axis_names`: outer `none`
models an absent key, inner `Option` the (possibly null) value. -/
structure AxesKw where
  x : Option (Option String)
  y : Option (Option String)
  z : Option (Option String)
  t : Option (Option String)
  deriving DecidableEq, Repr

/-- `DatasetBuilder.set_data_array_axis_names` (lines 256-268): assign each
present, changed axis; on a time-axis change, derive `da_t_max` from the
length of the time coordinate (a bad name raises a lookup error). -/
def set_data_array_axis_names (s : Builder) (kw : AxesKw) :
    Except String Builder :=
  let s := match kw.x with
    | some v => if v ≠ s.da_x then { s with da_x := v } else s
    | none => s
  let s := match kw.y with
    | some v => if v ≠ s.da_y then { s with da_y := v } else s
    | none => s
  let s := match kw.z with
    | some v => if v ≠ s.da_z then { s with da_z := v } else s
    | none => s
  match kw.t with
  | none => .ok s
  | some v =>
    if v ≠ s.da_t then
      let s := { s with da_t := v }
      if dsTruthy s.dataset ∧ strTruthy s.da_active ∧ strTruthy s.da_t then
        match s.dataset, s.da_active, s.da_t with
        | some ds, some act, some tname =>
          match ds.lookupVar act with
          | none => .error ("KeyError: " ++ act)
          | some da =>
            match da.dims.find? (fun d => d.name == tname) with
            | none => .error ("KeyError: " ++ tname)
            | some d => .ok { s with da_t_max := (d.size : ℤ) - 1 }
        | _, _, _ => .ok s
      else .ok s
    else .ok s

/-- `DatasetBuilder.set_data_array_time_index` (lines 270-272). -/
def set_data_array_time_index (s : Builder) (index : ℤ) : Builder :=
  if index ≠ s.da_t_index then { s with da_t_index := index } else s

/-- Insert-or-overwrite into an association list, modelling Python dict
assignment (a later write to the same key replaces the earlier value). -/
def upsert (k : String) (v : ℚ × ℚ × ℚ) :
    List (String × ℚ × ℚ × ℚ) → List (String × ℚ × ℚ × ℚ)
  | [] => [(k, v)]
  | e :: rest => if e.1 == k then (k, v) :: rest else e :: upsert k v rest

/-- The slicing dict derived from a coordinate list in
`set_data_array_coordinates`. -/
def slicingOf (cs : List Coord) : List (String × ℚ × ℚ × ℚ) :=
  cs.foldl (fun d c => upsert c.name (c.start, c.stop, c.step) d) []

/-- `DatasetBuilder.set_data_array_coordinates` (lines 274-284). -/
def set_data_array_coordinates (s : Builder) (cs : List Coord) : Builder :=
  let s := if s.da_coordinates ≠ cs then { s with da_coordinates := cs } else s
  { s with slicing := slicingOf cs }

/-- External effects the builder invokes, supplied as parameters:
`exists` models `os.path.exists`; `openDataset` models
`xarray.open_dataset` (the engine inferred from the `.zarr`/`.nc` extension
only selects the reader and is not otherwise observable) with
`Except.error` carrying the caught exception text; `loadTutorial` models
`xarray.tutorial.load_dataset`, whose exceptions are NOT caught;
`slicedBytes` models `size * dtype.itemsize` of the mesh source's
`sliced_data_array`, `none` standing for a `None` array. -/
structure Env where
  available_datasets : List (String × Option String)
  pathExists : String → Bool
  openDataset : String → Except String Dataset
  loadTutorial : String → Except String Dataset
  slicedBytes : Algorithm → Option ℕ

/-- The aggregated dimension dict of a dataset (`dict(self.dataset.dims)`),
first occurrence of each dimension name winning. -/
def datasetDims (ds : Dataset) : List (String × ℕ) :=
  ds.data_vars.foldl
    (fun acc v =>
      v.dims.foldl
        (fun acc d =>
          if (acc.find? (fun e => e.1 == d.name)).isSome then acc
          else acc ++ [(d.name, d.size)])
        acc)
    []

/-- Python `str(dict(...))` rendering of the dimension dict, used for the
synthetic "dimensions" attribute entry. -/
def dimsRepr (ds : Dataset) : String :=
  "\x7b" ++ String.intercalate ", "
    ((datasetDims ds).map (fun e => "'" ++ e.1 ++ "': " ++ toString e.2))
    ++ "\x7d"

/-- The tail of `set_dataset_path` after a successful dataset open (lines
179-204): reset the mesh source, rebuild variable and attribute lists,
clear coordinates and axis assignments, then activate the first data
variable (or flag the absence of variables) and clear the loading flag. -/
def finishDatasetLoad (s : Builder) (ds : Dataset) : Except String Builder :=
  let s := { s with dataset := some ds, algorithm := Algorithm.init }
  let s := { s with da_vars := ds.data_vars.map (fun v : DataVar => v.name) }
  let s := { s with da_attrs := ("dimensions", dimsRepr ds) :: ds.attrs }
  let s := { s with da_coordinates := [], ui_expanded_coordinates := [] }
  let s := { s with da_x := none, da_y := none, da_z := none, da_t := none,
                    da_t_index := 0 }
  let s := { s with dataset_ready := true }
  match ds.data_vars with
  | [] => .ok { s with no_da_vars := true, ui_loading := false }
  | v :: _ =>
    match set_data_array_active_name s (some v.name) with
    | .error e => .error e
    | .ok s => .ok { s with ui_loading := false }

/-- One step of the catalog scan of `set_dataset_path`: pick up the
`more_info` link of a matching catalog entry. -/
def moreInfoStep (p : String) (st : Builder) (entry : String × Option String) :
    Builder :=
  if entry.1 == p ∧ entry.2.isSome
  then { st with ui_more_info_link := entry.2 } else st

/-- `DatasetBuilder.set_dataset_path` (lines 149-204): record the path,
return for a null path, raise the loading flag, pick up a `more_info` link
from the catalog, open the dataset — catching exceptions (and keeping the
loading flag raised) only on the path/URL branch — and finish the load. -/
def set_dataset_path (env : Env) (s : Builder) (dataset_path : Option String) :
    Except String Builder :=
  let s := if dataset_path ≠ s.dataset_path
           then { s with dataset_path := dataset_path } else s
  match dataset_path with
  | none => .ok s
  | some p =>
    let s := { s with ui_loading := true }
    let s := env.available_datasets.foldl (moreInfoStep p) s
    if substrOf "https://".data p.data || env.pathExists p then
      match env.openDataset p with
      | .error e => .ok { s with ui_error_message := some e }
      | .ok ds => finishDatasetLoad s ds
    else
      match env.loadTutorial p with
      | .error e => .error e
      | .ok ds => finishDatasetLoad s ds

/-- The byte-size ladder of `mesh_changed` (lines 358-364): scanning
exponents 3,2,1,0, pick the first unit whose divisor `1024^k` the total
strictly exceeds and render the rounded quotient; when none qualifies
(total of 0 or 1 byte) `da_size` is left untouched, modelled by `none`. -/
def computeDaSize (total_bytes : ℕ) : Option String :=
  if total_bytes > 1024 ^ 3 then
    some (toString (pyRound total_bytes (1024 ^ 3)) ++ " " ++ "GB")
  else if total_bytes > 1024 ^ 2 then
    some (toString (pyRound total_bytes (1024 ^ 2)) ++ " " ++ "MB")
  else if total_bytes > 1024 ^ 1 then
    some (toString (pyRound total_bytes (1024 ^ 1)) ++ " " ++ "KB")
  else if total_bytes > 1024 ^ 0 then
    some (toString (pyRound total_bytes (1024 ^ 0)) ++ " " ++ "bytes")
  else none

/-- `DatasetBuilder.mesh_changed` (lines 340-367): push the current state
into the mesh source, recompute the human-readable size of the sliced
array through the byte ladder, and flag unapplied changes.  Indexing the
dataset with a missing or null active name raises. -/
def mesh_changed (env : Env) (s : Builder) : Except String Builder :=
  match s.dataset with
  | none => .ok s
  | some ds =>
    match s.da_active with
    | none => .error "KeyError: None"
    | some name =>
      match ds.lookupVar name with
      | none => .error ("KeyError: " ++ name)
      | some _ =>
        let alg : Algorithm :=
          { data_array := some name, slicing := s.slicing,
            x := s.da_x, y := s.da_y, z := s.da_z, t := s.da_t,
            time_index := s.da_t_index }
        let s := { s with algorithm := alg }
        let total_bytes : ℕ :=
          if strTruthy s.da_active then
            match env.slicedBytes alg with
            | some b => b
            | none => 0
          else 0
        let s := match computeDaSize total_bytes with
          | some txt => { s with da_size := some txt }
          | none => s
        .ok { s with ui_unapplied_changes := true, ui_loading := false }

/-- The `data_array` section of a config dict.  Outer `Option`s model key
presence; `active`'s inner `Option` models a possibly-null stored value.
`da_t_index` is a key only hand-written configs can contain (export never
writes it); its presence routes `import_config` into a call of the
nonexistent method `set_t_index`. -/
structure ArrayConfig where
  active : Option (Option String)
  x : Option (Option String)
  y : Option (Option String)
  z : Option (Option String)
  t : Option (Option String)
  t_index : Option ℤ
  da_t_index : Option ℤ
  deriving DecidableEq, Repr

/-- Python truthiness of the `data_array` dict: at least one key present. -/
def arrTruthy (a : ArrayConfig) : Bool :=
  a.active.isSome || a.x.isSome || a.y.isSome || a.z.isSome || a.t.isSome
    || a.t_index.isSome || a.da_t_index.isSome

/-- The `ui` section of a config dict (the keys `export_config` writes). -/
structure UiConfig where
  main_drawer : Option Bool
  axis_drawer : Option Bool
  expanded_coordinates : Option (List String)
  deriving DecidableEq, Repr

/-- A parsed config dict, with `none` for absent top-level keys. -/
structure Config where
  data_origin : Option String
  data_array : Option ArrayConfig
  data_slices : Option (List (String × ℚ × ℚ × ℚ))
  ui : Option UiConfig
  deriving DecidableEq, Repr

/-- `DatasetBuilder.export_config` (lines 450-485) with `config_file=None`:
serialize origin, active array, truthy axis assignments, nonzero
`t_index`, truthy slice triples and the three `ui_*` drawer fields. -/
def export_config (s : Builder) : Config :=
  let arr : ArrayConfig :=
    { active := some s.da_active
      x := if strTruthy s.da_x then some s.da_x else none
      y := if strTruthy s.da_y then some s.da_y else none
      z := if strTruthy s.da_z then some s.da_z else none
      t := if strTruthy s.da_t then some s.da_t else none
      t_index := if s.da_t_index ≠ 0 then some s.da_t_index else none
      da_t_index := none }
  let slices := s.da_coordinates.foldl
    (fun acc c =>
      if numTruthy c.start || numTruthy c.stop || numTruthy c.step then
        upsert c.name (c.start, c.stop, c.step) acc
      else acc)
    []
  { data_origin := s.dataset_path
    data_array := some arr
    data_slices := if slices = [] then none else some slices
    ui := some { main_drawer := some s.ui_main_drawer
                 axis_drawer := some s.ui_axis_drawer
                 expanded_coordinates := some s.ui_expanded_coordinates } }

/-- `DatasetBuilder.import_config` (lines 406-448) on an already-parsed
config dict: validate the two required keys, then apply origin, active
name, axis names, slices and ui fields in order and recompute the mesh.
The `"da_t_index"` branch resolves the attribute `set_t_index`, which
`DatasetBuilder` does not define, so reaching it raises. -/
def import_config (env : Env) (s : Builder) (config : Config) :
    Except String Builder :=
  let originOk := strTruthy config.data_origin
  let arrOk := match config.data_array with
    | none => false
    | some a => arrTruthy a
  if ¬ (originOk && arrOk) then
    .ok { s with ui_action_message := some "Invalid format of import file." }
  else
    match config.data_array with
    | none => .ok s
    | some arr => do
      let s ← set_dataset_path env s config.data_origin
      let s ← match arr.active with
        | some v => set_data_array_active_name s v
        | none => pure s
      let s ← set_data_array_axis_names s
        { x := arr.x, y := arr.y, z := arr.z, t := arr.t }
      let s ← if arr.da_t_index.isSome then
          Except.error
            "AttributeError: 'DatasetBuilder' object has no attribute 'set_t_index'"
        else pure s
      let s := match config.data_slices with
        | none => s
        | some slices =>
          if slices = [] then s
          else
            let new_coordinates := s.da_coordinates.map (fun c =>
              match slices.find? (fun e => e.1 == c.name) with
              | some e => { c with start := e.2.1, stop := e.2.2.1,
                                   step := e.2.2.2 }
              | none => c)
            set_data_array_coordinates s new_coordinates
      let s := match config.ui with
        | none => s
        | some u =>
          let s := match u.main_drawer with
            | some b => { s with ui_main_drawer := b }
            | none => s
          let s := match u.axis_drawer with
            | some b => { s with ui_axis_drawer := b }
            | none => s
          match u.expanded_coordinates with
          | some l => { s with ui_expanded_coordinates := l }
          | none => s
      let s ← mesh_changed env s
      .ok { s with ui_action_name := none, ui_selected_config_file := none }

/-! Concrete fixtures for witnesses and counterexamples. -/

/-- A baseline builder state: nothing loaded, everything null/empty, the
flags false, matching the quiescent initial state. -/
def B0 : Builder :=
  { dataset_path := none, dataset := none, algorithm := Algorithm.init,
    da_active := none, da_vars := [], da_attrs := [], da_coordinates := [],
    da_x := none, da_y := none, da_z := none, da_t := none,
    da_t_index := 0, da_t_max := 0, da_size := none, slicing := [],
    dataset_ready := false, no_da_vars := false, ui_loading := false,
    ui_main_drawer := false, ui_axis_drawer := false,
    ui_expanded_coordinates := [], ui_error_message := none,
    ui_action_message := none, ui_action_name := none,
    ui_selected_config_file := none, ui_more_info_link := none,
    ui_unapplied_changes := false }

/-- A coordinate record over range `[0, 10]` with the default slice. -/
def coordA : Coord :=
  { name := "a", size := 10, lo := 0, hi := 10, start := 0, stop := 10,
    step := 1 }

/-- A coordinate literally named `x`. -/
def coordX : Coord :=
  { name := "x", size := 4, lo := 0, hi := 3, start := 0, stop := 3,
    step := 1 }

/-- A coordinate whose name matches no auto-selection keyword. -/
def coordFoo : Coord :=
  { name := "foo", size := 4, lo := 0, hi := 3, start := 0, stop := 3,
    step := 1 }

/-- A coordinate named `lon` (keyword match for the X axis). -/
def coordLon : Coord :=
  { name := "lon", size := 4, lo := 0, hi := 3, start := 0, stop := 3,
    step := 1 }

/-- A one-variable dataset whose single dimension `foo` matches no
auto-selection keyword. -/
def dsFoo : Dataset :=
  { data_vars :=
      [{ name := "temp",
         dims := [{ name := "foo", size := 4, numeric := true,
                    cmin := 0, cmax := 3 }] }],
    attrs := [] }

/-- An environment that serves `dsFoo` under the path `data.nc` and
reports 32 bytes for any sliced array. -/
def envData : Env :=
  { available_datasets := [],
    pathExists := fun p => p == "data.nc",
    openDataset := fun p => if p == "data.nc" then .ok dsFoo
                            else .error "file not found",
    loadTutorial := fun _ => .error "unknown tutorial dataset",
    slicedBytes := fun _ => some 32 }

/-- A builder with `dsFoo` loaded, the time axis on `foo` and a nonzero
time index. -/
def sLoaded : Builder :=
  { B0 with dataset_path := some "data.nc", dataset := some dsFoo,
            da_active := some "temp", da_t := some "foo", da_t_index := 1,
            da_vars := ["temp"], da_coordinates := [coordFoo],
            dataset_ready := true }

/-- The unit names of the byte-size ladder, by exponent. -/
def unitName : ℕ → String
  | 0 => "bytes"
  | 1 => "KB"
  | 2 => "MB"
  | _ => "GB"

/-- C6: importing a config whose `data_origin` or `data_array` key is
absent writes the action message "Invalid format of import file." and
changes nothing else: the result is the prior state with only that
message set. -/
theorem C6_theorem (env : Env) (s : Builder) (config : Config)
    (h : config.data_origin = none ∨ config.data_array = none) :
    import_config env s config =
      .ok { s with ui_action_message := some "Invalid format of import file." } := by
  rcases h with h | h
  · unfold import_config
    simp [h, strTruthy]
  · unfold import_config
    simp [h]

/-- Witness for C6 at a concrete empty config. -/
theorem C6_witness :
    import_config envData B0
        { data_origin := none, data_array := none, data_slices := none,
          ui := none } =
      .ok { B0 with ui_action_message := some "Invalid format of import file." } :=
  C6_theorem envData B0 _ (Or.inl rfl)

/-- C8: the byte-size formatter picks the largest exponent `k ≤ 3` whose
divisor `1024^k` the total strictly exceeds and renders the half-even
rounded quotient with that unit; 500 bytes, 2048 bytes and 5000000 bytes
format as "500 bytes", "2 KB" and "5 MB". -/
theorem C8_theorem :
    (∀ n k : ℕ, k ≤ 3 → 1024 ^ k < n → (k < 3 → n ≤ 1024 ^ (k + 1)) →
      computeDaSize n =
        some (toString (pyRound n (1024 ^ k)) ++ " " ++ unitName k)) ∧
    computeDaSize 500 = some "500 bytes" ∧
    computeDaSize 2048 = some "2 KB" ∧
    computeDaSize 5000000 = some "5 MB" := by
  refine ⟨?_, by decide, by decide, by decide⟩
  intro n k hk h1 h2
  interval_cases k
  · have h2' : n ≤ 1024 := by simpa using h2 (by norm_num)
    unfold computeDaSize
    rw [if_neg (by norm_num; omega), if_neg (by norm_num; omega),
        if_neg (by norm_num; omega), if_pos (by norm_num; omega)]
    rfl
  · have h2' : n ≤ 1024 ^ 2 := h2 (by norm_num)
    rw [show (1024:ℕ) ^ 2 = 1048576 by norm_num] at h2'
    have h1' : 1024 < n := by simpa using h1
    unfold computeDaSize
    rw [if_neg (by norm_num; omega), if_neg (by norm_num; omega),
        if_pos (by norm_num; omega)]
    rfl
  · have h2' : n ≤ 1024 ^ 3 := h2 (by norm_num)
    rw [show (1024:ℕ) ^ 3 = 1073741824 by norm_num] at h2'
    have h1' : 1048576 < n := by
      have := h1; rw [show (1024:ℕ) ^ 2 = 1048576 by norm_num] at this; exact this
    unfold computeDaSize
    rw [if_neg (by norm_num; omega), if_pos (by norm_num; omega)]
    rfl
  · have h1' : 1073741824 < n := by
      have := h1; rw [show (1024:ℕ) ^ 3 = 1073741824 by norm_num] at this; exact this
    unfold computeDaSize
    rw [if_pos (by norm_num; omega)]
    rfl

/-- Witness for C8 at 2048 bytes with exponent 1. -/
theorem C8_witness :
    computeDaSize 2048 =
      some (toString (pyRound 2048 (1024 ^ 1)) ++ " " ++ unitName 1) :=
  C8_theorem.1 2048 1 (by norm_num) (by norm_num) (by norm_num)

/-- C10: the slice-edit handler commits nothing unless the raw string is
numeric in Python's sense (all decimal digits); in particular "-5" and
"3.5" are not numeric, so such edits leave the whole state unchanged. -/
theorem C10_theorem :
    (∀ (s : Builder) (cname : String) (attr : SliceAttr) (v : String),
        pyIsNumeric v = false → coordinate_change_slice s cname attr v = s) ∧
    pyIsNumeric "-5" = false ∧ pyIsNumeric "3.5" = false := by
  refine ⟨?_, by decide, by decide⟩
  intro s cname attr v h
  unfold coordinate_change_slice
  simp [h]

/-- Witness for C10: an in-range negative edit is still rejected whole. -/
theorem C10_witness :
    coordinate_change_slice { B0 with da_coordinates := [coordA] } "a"
        SliceAttr.start "-5" = { B0 with da_coordinates := [coordA] } :=
  C10_theorem.1 _ "a" SliceAttr.start "-5" (by decide)

/-- The per-field slice bounds: `start` and `stop` inside the coordinate's
range, `step` strictly between 0 and the size. -/
def coordFieldInv (c : Coord) : Bool :=
  decide (c.lo ≤ c.start) && decide (c.start ≤ c.hi) &&
  decide (c.lo ≤ c.stop) && decide (c.stop ≤ c.hi) &&
  decide (0 < c.step) && decide (c.step < (c.size : ℚ))

lemma updateFirst_all {P : Coord → Bool} (p : Coord → Bool) (f : Coord → Coord)
    (l : List Coord) (hall : l.all P = true)
    (hf : ∀ c, P c = true → P (f c) = true) :
    (updateFirst p f l).all P = true := by
  induction l with
  | nil => simp [updateFirst]
  | cons a rest ih =>
    simp only [List.all_cons, Bool.and_eq_true] at hall
    unfold updateFirst
    by_cases hpa : p a = true
    · simp only [hpa, if_true, List.all_cons, Bool.and_eq_true]
      exact ⟨hf a hall.1, hall.2⟩
    · simp only [hpa, if_false, Bool.false_eq_true, List.all_cons,
        Bool.and_eq_true]
      exact ⟨hall.1, ih hall.2⟩

/-- C4 (amended): the slice-edit handler preserves the per-field bounds —
every accepted edit keeps `range[0] <= start <= range[1]`,
`range[0] <= stop <= range[1]` and `0 < step < size`; the cross-field
ordering `start <= stop` is NOT checked (see the counterexample). -/
theorem C4_theorem (s : Builder) (cname : String) (attr : SliceAttr)
    (v : String) (h : s.da_coordinates.all coordFieldInv = true) :
    (coordinate_change_slice s cname attr v).da_coordinates.all
      coordFieldInv = true := by
  unfold coordinate_change_slice
  by_cases hnum : pyIsNumeric v = true
  · simp only [hnum, if_true]
    by_cases hfind :
        (s.da_coordinates.find? (fun c => c.name == cname)).isSome = true
    · simp only [hfind, if_true]
      apply updateFirst_all _ _ _ h
      intro c hc
      cases attr
      all_goals
        simp only []
        split
        · simp only [coordFieldInv, Bool.and_eq_true, decide_eq_true_eq]
            at hc ⊢
          constructor
          · constructor
            · constructor
              · constructor
                · constructor
                  · first
                    | exact hc.1.1.1.1.1
                    | (rename_i hcond; exact hcond.1)
                  · first
                    | exact hc.1.1.1.1.2
                    | (rename_i hcond; exact hcond.2)
                · first
                  | exact hc.1.1.1.2
                  | (rename_i hcond; exact hcond.1)
              · first
                | exact hc.1.1.2
                | (rename_i hcond; exact hcond.2)
            · first
              | exact hc.1.2
              | (rename_i hcond; exact hcond.1)
          · first
            | exact hc.2
            | (rename_i hcond; exact hcond.2)
        · exact hc
    · simp only [hfind]
      simpa using h
  · simp only [Bool.not_eq_true] at hnum
    simp only [hnum]
    simpa using h

/-- Witness for C4 at a concrete accepted `stop` edit. -/
theorem C4_witness :
    (coordinate_change_slice { B0 with da_coordinates := [coordA] } "a"
        SliceAttr.stop "5").da_coordinates.all coordFieldInv = true :=
  C4_theorem { B0 with da_coordinates := [coordA] } "a" SliceAttr.stop "5"
    (by decide)

/-- Counterexample to C4 as stated: two individually accepted edits (start
to 8, then stop to 5, both inside the range `[0, 10]`) leave the
coordinate with `start = 8 > stop = 5`, violating
`range[0] <= start <= stop <= range[1]`. -/
theorem C4_counterexample :
    (coordinate_change_slice
        (coordinate_change_slice { B0 with da_coordinates := [coordA] }
          "a" SliceAttr.start "8")
        "a" SliceAttr.stop "5").da_coordinates =
      [{ coordA with start := 8, stop := 5 }] ∧
    ¬ ((8 : ℚ) ≤ 5) := by
  constructor
  · decide
  · decide

/-- Whether the parsed value violates the legal bounds the handler checks
for the given slice field. -/
def sliceOutOfBounds (attr : SliceAttr) (c : Coord) (v : ℚ) : Bool :=
  match attr with
  | .step => ! decide (0 < v ∧ v < (c.size : ℚ))
  | .start => ! decide (c.lo ≤ v ∧ v ≤ c.hi)
  | .stop => ! decide (c.lo ≤ v ∧ v ≤ c.hi)

lemma updateFirst_id (p : Coord → Bool) (f : Coord → Coord) (l : List Coord)
    (c : Coord) (hfind : l.find? p = some c) (hfc : f c = c) :
    updateFirst p f l = l := by
  induction l with
  | nil => simp at hfind
  | cons a rest ih =>
    by_cases hpa : p a = true
    · rw [List.find?_cons_of_pos _ hpa] at hfind
      have ha : a = c := by injection hfind
      unfold updateFirst
      rw [if_pos hpa, ha, hfc]
    · rw [List.find?_cons_of_neg _ (by simpa using hpa)] at hfind
      unfold updateFirst
      rw [if_neg hpa, ih hfind]

/-- C7: a numeric slice edit whose value is outside the legal bounds for
its field is silently dropped — the handler returns the state unchanged
(and, being a total function, raises nothing). -/
theorem C7_theorem (s : Builder) (cname v : String) (attr : SliceAttr)
    (c : Coord)
    (hfind : s.da_coordinates.find? (fun c => c.name == cname) = some c)
    (hnum : pyIsNumeric v = true)
    (hout : sliceOutOfBounds attr c (parseDigits v) = true) :
    coordinate_change_slice s cname attr v = s := by
  cases attr
  case start =>
    have h' : ¬ (c.lo ≤ parseDigits v ∧ parseDigits v ≤ c.hi) := by
      have h2 := hout
      simp only [sliceOutOfBounds, Bool.not_eq_true'] at h2
      exact of_decide_eq_false h2
    unfold coordinate_change_slice
    simp only [hnum, if_true, hfind, Option.isSome_some]
    rw [updateFirst_id _ _ _ c hfind (by simp [h'])]
  case stop =>
    have h' : ¬ (c.lo ≤ parseDigits v ∧ parseDigits v ≤ c.hi) := by
      have h2 := hout
      simp only [sliceOutOfBounds, Bool.not_eq_true'] at h2
      exact of_decide_eq_false h2
    unfold coordinate_change_slice
    simp only [hnum, if_true, hfind, Option.isSome_some]
    rw [updateFirst_id _ _ _ c hfind (by simp [h'])]
  case step =>
    have h' : ¬ (0 < parseDigits v ∧ parseDigits v < (c.size : ℚ)) := by
      have h2 := hout
      simp only [sliceOutOfBounds, Bool.not_eq_true'] at h2
      exact of_decide_eq_false h2
    unfold coordinate_change_slice
    simp only [hnum, if_true, hfind, Option.isSome_some]
    rw [updateFirst_id _ _ _ c hfind (by simp [h'])]

/-- Witness for C7: editing `start` to the out-of-range value 11 on a
`[0, 10]` coordinate returns the state unchanged. -/
theorem C7_witness :
    coordinate_change_slice { B0 with da_coordinates := [coordA] } "a"
        SliceAttr.start "11" = { B0 with da_coordinates := [coordA] } :=
  C7_theorem { B0 with da_coordinates := [coordA] } "a" "11"
    SliceAttr.start coordA (by decide) (by decide) (by decide)

lemma auto_select_noop (s : Builder)
    (h : (strTruthy s.da_x || strTruthy s.da_y || strTruthy s.da_z ||
      strTruthy s.da_t) = true) :
    auto_select_coordinates s = s := by
  unfold auto_select_coordinates
  simp [h]

/-- C5 (amended): auto-axis-selection is a no-op whenever any of the four
axis state keys is truthy — non-null AND non-empty; a non-null empty
string slips past the guard (see the counterexample). -/
theorem C5_theorem (s : Builder)
    (h : (strTruthy s.da_x || strTruthy s.da_y || strTruthy s.da_z ||
      strTruthy s.da_t) = true) :
    auto_select_coordinates s = s :=
  auto_select_noop s h

/-- Witness for C5 with the x axis already assigned. -/
theorem C5_witness :
    auto_select_coordinates { B0 with da_x := some "lon" } =
      { B0 with da_x := some "lon" } :=
  C5_theorem { B0 with da_x := some "lon" } (by decide)

/-- Counterexample to C5 as stated: with `da_x` bound to the non-null
empty string (falsy in Python) and a coordinate named `x` present, the
invocation is NOT a no-op — it overwrites `da_x`. -/
theorem C5_counterexample :
    ({ B0 with da_x := some "", da_coordinates := [coordX] } : Builder).da_x
        ≠ none ∧
    (auto_select_coordinates
        { B0 with da_x := some "", da_coordinates := [coordX] }).da_x ≠
      ({ B0 with da_x := some "", da_coordinates := [coordX] } : Builder).da_x := by
  constructor
  · decide
  · decide

/-- The auto-selection invariant: every axis the pending `state_update`
assigns got the name of a keyword-matching coordinate of the state. -/
def AxInv (s : Builder) (upd : Axis → Option String) : Prop :=
  ∀ a v, upd a = some v →
    s.da_coordinates.any
      (fun c => c.name == v && axisKeywordMatch (axisKeywords a) c.name) = true

lemma autoEntry_inv (s : Builder) (c : Coord) (upd : Axis → Option String)
    (axkw : Axis × List String) (hkw : axkw.2 = axisKeywords axkw.1)
    (hc : c ∈ s.da_coordinates) (hupd : AxInv s upd) :
    AxInv s (autoEntry s c upd axkw) := by
  intro a v hv
  unfold autoEntry at hv
  by_cases h1 : ¬ strTruthy (s.axisVal axkw.1)
  · rw [if_pos h1] at hv
    by_cases h2 : axisKeywordMatch axkw.2 c.name = true
    · rw [if_pos h2] at hv
      by_cases ha : a = axkw.1
      · rw [if_pos ha] at hv
        injection hv with hv
        subst hv
        rw [List.any_eq_true]
        refine ⟨c, hc, ?_⟩
        simp only [Bool.and_eq_true, beq_self_eq_true, true_and]
        rw [ha, ← hkw]
        exact h2
      · rw [if_neg ha] at hv
        exact hupd a v hv
    · rw [if_neg h2] at hv
      exact hupd a v hv
  · rw [if_neg h1] at hv
    exact hupd a v hv

lemma autoStep_inv (s : Builder) (c : Coord) (upd : Axis → Option String)
    (hc : c ∈ s.da_coordinates) (hupd : AxInv s upd) :
    AxInv s (autoUpdStep s upd c) := by
  unfold autoUpdStep coordinate_auto_selection
  simp only [List.foldl_cons, List.foldl_nil]
  exact autoEntry_inv s c _ _ rfl hc
    (autoEntry_inv s c _ _ rfl hc
      (autoEntry_inv s c _ _ rfl hc
        (autoEntry_inv s c _ _ rfl hc hupd)))

lemma autoFold_inv (s : Builder) :
    ∀ (L : List Coord) (upd : Axis → Option String),
      (∀ c ∈ L, c ∈ s.da_coordinates) → AxInv s upd →
      AxInv s (L.foldl (autoUpdStep s) upd)
  | [], _, _, hupd => by simpa using hupd
  | c :: rest, upd, hL, hupd => by
    simp only [List.foldl_cons]
    exact autoFold_inv s rest _
      (fun c' hc' => hL c' (List.mem_cons_of_mem _ hc'))
      (autoStep_inv s c upd (hL c (List.mem_cons_self _ _)) hupd)

lemma autoUpd_inv (s : Builder) : AxInv s (autoUpd s) := by
  unfold autoUpd
  exact autoFold_inv s _ _ (fun c hc => hc) (fun a v hv => by simp at hv)

lemma applyAxisUpd_axisVal (s : Builder) (upd : Axis → Option String)
    (a : Axis) :
    (applyAxisUpd s upd).axisVal a =
      match upd a with
      | some v => some v
      | none => s.axisVal a := by
  unfold applyAxisUpd
  simp only [List.foldl_cons, List.foldl_nil]
  cases a <;>
    rcases hx : upd Axis.x with _ | vx <;>
    rcases hy : upd Axis.y with _ | vy <;>
    rcases hz : upd Axis.z with _ | vz <;>
    rcases ht : upd Axis.t with _ | vt <;>
    simp [hx, hy, hz, ht, Builder.setAxis, Builder.axisVal]

/-- C3 (amended): starting from all-null axes, auto-selection is a single
keyword-matching pass — any axis it assigns receives the name of a
dimension matching that axis's keyword list; there is no positional
fallback pass for the remaining dimensions (see the counterexample). -/
theorem C3_theorem (s : Builder) (a : Axis) (v : String)
    (h0 : s.da_x = none ∧ s.da_y = none ∧ s.da_z = none ∧ s.da_t = none)
    (hassigned : (auto_select_coordinates s).axisVal a = some v) :
    s.da_coordinates.any
      (fun c => c.name == v && axisKeywordMatch (axisKeywords a) c.name)
      = true := by
  obtain ⟨hx, hy, hz, ht⟩ := h0
  have hguard : (strTruthy s.da_x || strTruthy s.da_y || strTruthy s.da_z ||
      strTruthy s.da_t) = false := by
    simp [hx, hy, hz, ht, strTruthy]
  unfold auto_select_coordinates at hassigned
  rw [hguard] at hassigned
  simp only [Bool.false_eq_true, if_false] at hassigned
  rw [applyAxisUpd_axisVal] at hassigned
  rcases hupd : autoUpd s a with _ | w
  · rw [hupd] at hassigned
    cases a <;> simp [Builder.axisVal, hx, hy, hz, ht] at hassigned
  · rw [hupd] at hassigned
    simp only [] at hassigned
    injection hassigned with hw
    subst hw
    exact autoUpd_inv s a _ hupd

/-- Witness for C3: the dimension `lon` is auto-assigned to the x axis by
its keyword match. -/
theorem C3_witness :
    ({ B0 with da_coordinates := [coordLon] } : Builder).da_coordinates.any
      (fun c => c.name == "lon" &&
        axisKeywordMatch (axisKeywords Axis.x) c.name) = true :=
  C3_theorem { B0 with da_coordinates := [coordLon] } Axis.x "lon"
    ⟨rfl, rfl, rfl, rfl⟩ (by decide)

/-- Counterexample to C3 as stated: starting from all-null axes with the
single dimension `foo` (no keyword match), auto-selection terminates with
every axis still unassigned although an unconsumed dimension remains — the
claimed positional second pass does not exist. -/
theorem C3_counterexample :
    (auto_select_coordinates
        { B0 with da_coordinates := [coordFoo] }).da_x = none ∧
    (auto_select_coordinates
        { B0 with da_coordinates := [coordFoo] }).da_y = none ∧
    (auto_select_coordinates
        { B0 with da_coordinates := [coordFoo] }).da_z = none ∧
    (auto_select_coordinates
        { B0 with da_coordinates := [coordFoo] }).da_t = none ∧
    ({ B0 with da_coordinates := [coordFoo] } : Builder).da_coordinates ≠ [] :=
  ⟨by decide, by decide, by decide, by decide, by decide⟩


lemma applyAxisUpd_t_index (s : Builder) (upd : Axis → Option String) :
    (applyAxisUpd s upd).da_t_index = s.da_t_index := by
  unfold applyAxisUpd
  simp only [List.foldl_cons, List.foldl_nil]
  rcases hx : upd Axis.x with _ | vx <;>
    rcases hy : upd Axis.y with _ | vy <;>
    rcases hz : upd Axis.z with _ | vz <;>
    rcases ht : upd Axis.t with _ | vt <;>
    simp [hx, hy, hz, ht, Builder.setAxis]

lemma auto_select_t_index (s : Builder) :
    (auto_select_coordinates s).da_t_index = s.da_t_index := by
  unfold auto_select_coordinates
  split
  · rfl
  · exact applyAxisUpd_t_index s (autoUpd s)

lemma buildFold_pres (dims : List DimInfo) (st : Builder) :
    (dims.foldl buildCoordStep st).da_x = st.da_x ∧
    (dims.foldl buildCoordStep st).da_y = st.da_y ∧
    (dims.foldl buildCoordStep st).da_z = st.da_z ∧
    (dims.foldl buildCoordStep st).da_t = st.da_t ∧
    (dims.foldl buildCoordStep st).da_t_index = st.da_t_index := by
  induction dims generalizing st with
  | nil => simp
  | cons d rest ih =>
    simp only [List.foldl_cons]
    have h := ih (buildCoordStep st d)
    simpa [buildCoordStep] using h

lemma activeNameCore_pres (s₁ : Builder) (n : Option String) (s' : Builder)
    (h : activeNameCore s₁ n = Except.ok s') :
    s'.da_t_index = s₁.da_t_index ∧
    ((strTruthy s₁.da_x || strTruthy s₁.da_y || strTruthy s₁.da_z ||
        strTruthy s₁.da_t) = true →
      s'.da_x = s₁.da_x ∧ s'.da_y = s₁.da_y ∧ s'.da_z = s₁.da_z ∧
        s'.da_t = s₁.da_t) := by
  unfold activeNameCore at h
  rcases hds : s₁.dataset with _ | ds
  · rw [hds] at h
    injection h with h'
    subst h'
    exact ⟨rfl, fun _ => ⟨rfl, rfl, rfl, rfl⟩⟩
  · rw [hds] at h
    rcases hn : n with _ | name
    · rw [hn] at h
      injection h with h'
      subst h'
      exact ⟨rfl, fun _ => ⟨rfl, rfl, rfl, rfl⟩⟩
    · rw [hn] at h
      dsimp only at h
      rcases hlk : ds.lookupVar name with _ | da
      · rw [hlk] at h
        simp at h
      · rw [hlk] at h
        injection h with h'
        subst h'
        constructor
        · rw [auto_select_t_index, (buildFold_pres da.dims _).2.2.2.2]
          exact rfl
        · intro htr
          have hg : (strTruthy (da.dims.foldl buildCoordStep
                (resetUiForActive s₁)).da_x ||
              strTruthy (da.dims.foldl buildCoordStep
                (resetUiForActive s₁)).da_y ||
              strTruthy (da.dims.foldl buildCoordStep
                (resetUiForActive s₁)).da_z ||
              strTruthy (da.dims.foldl buildCoordStep
                (resetUiForActive s₁)).da_t) = true := by
            rw [(buildFold_pres da.dims _).1, (buildFold_pres da.dims _).2.1,
                (buildFold_pres da.dims _).2.2.1,
                (buildFold_pres da.dims _).2.2.2.1]
            exact htr
          rw [auto_select_noop _ hg]
          refine ⟨?_, ?_, ?_, ?_⟩
          · rw [(buildFold_pres da.dims _).1]
            exact rfl
          · rw [(buildFold_pres da.dims _).2.1]
            exact rfl
          · rw [(buildFold_pres da.dims _).2.2.1]
            exact rfl
          · rw [(buildFold_pres da.dims _).2.2.2.1]
            exact rfl

/-- C2 (amended): `set_data_array_active_name` does NOT reset the axis
assignments or the time index.  It always leaves `da_t_index` unchanged,
and when any axis is truthy it leaves all four axis assignments unchanged
as well (auto-selection may only fill axes when all four are falsy); the
null/0 reset the claim describes happens in `set_dataset_path` instead. -/
theorem C2_theorem (s : Builder) (n : Option String) (s' : Builder)
    (h : set_data_array_active_name s n = Except.ok s') :
    s'.da_t_index = s.da_t_index ∧
    ((strTruthy s.da_x || strTruthy s.da_y || strTruthy s.da_z ||
        strTruthy s.da_t) = true →
      s'.da_x = s.da_x ∧ s'.da_y = s.da_y ∧ s'.da_z = s.da_z ∧
        s'.da_t = s.da_t) := by
  unfold set_data_array_active_name at h
  have hc := activeNameCore_pres _ n s' h
  by_cases hcond : n ≠ s.da_active
  · rw [if_pos hcond] at hc
    exact hc
  · rw [if_neg hcond] at hc
    exact hc

/-- Witness for C2 at the trivial no-dataset call. -/
theorem C2_witness :
    B0.da_t_index = B0.da_t_index ∧
    ((strTruthy B0.da_x || strTruthy B0.da_y || strTruthy B0.da_z ||
        strTruthy B0.da_t) = true →
      B0.da_x = B0.da_x ∧ B0.da_y = B0.da_y ∧ B0.da_z = B0.da_z ∧
        B0.da_t = B0.da_t) :=
  C2_theorem B0 none B0 rfl

/-- Counterexample to C2 as stated: switching the active array of a loaded
dataset with `da_t_index = 1` and `da_x = some "keep"` leaves both values
in place — nothing resets the axes to null or the time index to 0 before
auto-selection (which the surviving truthy `da_x` then short-circuits). -/
theorem C2_counterexample :
    (set_data_array_active_name { sLoaded with da_x := some "keep" }
        (some "temp")).toOption.map Builder.da_t_index = some 1 ∧
    (set_data_array_active_name { sLoaded with da_x := some "keep" }
        (some "temp")).toOption.map Builder.da_x = some (some "keep") ∧
    (1 : ℤ) ≠ 0 ∧ (some "keep" : Option String) ≠ none := by
  refine ⟨by decide, by decide, by decide, by decide⟩

lemma moreInfoFold_pres (p : String) (l : List (String × Option String))
    (st : Builder) :
    (l.foldl (moreInfoStep p) st).ui_loading = st.ui_loading ∧
    (l.foldl (moreInfoStep p) st).dataset = st.dataset ∧
    (l.foldl (moreInfoStep p) st).da_coordinates = st.da_coordinates := by
  induction l generalizing st with
  | nil => simp
  | cons e rest ih =>
    simp only [List.foldl_cons]
    have h := ih (moreInfoStep p st e)
    have he : (moreInfoStep p st e).ui_loading = st.ui_loading ∧
        (moreInfoStep p st e).dataset = st.dataset ∧
        (moreInfoStep p st e).da_coordinates = st.da_coordinates := by
      unfold moreInfoStep
      split <;> simp
    exact ⟨h.1.trans he.1, h.2.1.trans he.2.1, h.2.2.trans he.2.2⟩

/-- C9: when the path looks like a URL or exists and the dataset open
raises, `set_dataset_path` stores the exception text in `ui_error_message`
and returns at once: the loading flag raised at entry is still true, and
the previously loaded dataset and coordinates are untouched. -/
theorem C9_theorem (env : Env) (s : Builder) (p err : String)
    (hpath : (substrOf "https://".data p.data || env.pathExists p) = true)
    (hopen : env.openDataset p = .error err) :
    (set_dataset_path env s (some p)).toOption.map Builder.ui_error_message =
      some (some err) ∧
    (set_dataset_path env s (some p)).toOption.map Builder.ui_loading =
      some true ∧
    (set_dataset_path env s (some p)).toOption.map Builder.dataset =
      some s.dataset ∧
    (set_dataset_path env s (some p)).toOption.map Builder.da_coordinates =
      some s.da_coordinates := by
  have hf := moreInfoFold_pres p env.available_datasets
    { (if some p ≠ s.dataset_path then { s with dataset_path := some p }
       else s : Builder) with ui_loading := true }
  unfold set_dataset_path
  dsimp only
  rw [if_pos hpath, hopen]
  dsimp only [Except.toOption, Option.map]
  refine ⟨rfl, ?_, ?_, ?_⟩
  · rw [Option.some_inj]
    show (List.foldl (moreInfoStep p) _ env.available_datasets).ui_loading = true
    rw [hf.1]
  · rw [Option.some_inj]
    show (List.foldl (moreInfoStep p) _ env.available_datasets).dataset =
      s.dataset
    rw [hf.2.1]
    split <;> rfl
  · rw [Option.some_inj]
    show (List.foldl (moreInfoStep p) _
      env.available_datasets).da_coordinates = s.da_coordinates
    rw [hf.2.2]
    split <;> rfl

/-- Witness for C9: a failing open on an existing path. -/
theorem C9_witness :
    (set_dataset_path
        { available_datasets := [], pathExists := fun _ => true,
          openDataset := fun _ => .error "boom",
          loadTutorial := fun _ => .error "no tutorial",
          slicedBytes := fun _ => none }
        B0 (some "bad.nc")).toOption.map Builder.ui_error_message =
      some (some "boom") ∧
    (set_dataset_path
        { available_datasets := [], pathExists := fun _ => true,
          openDataset := fun _ => .error "boom",
          loadTutorial := fun _ => .error "no tutorial",
          slicedBytes := fun _ => none }
        B0 (some "bad.nc")).toOption.map Builder.ui_loading = some true ∧
    (set_dataset_path
        { available_datasets := [], pathExists := fun _ => true,
          openDataset := fun _ => .error "boom",
          loadTutorial := fun _ => .error "no tutorial",
          slicedBytes := fun _ => none }
        B0 (some "bad.nc")).toOption.map Builder.dataset = some B0.dataset ∧
    (set_dataset_path
        { available_datasets := [], pathExists := fun _ => true,
          openDataset := fun _ => .error "boom",
          loadTutorial := fun _ => .error "no tutorial",
          slicedBytes := fun _ => none }
        B0 (some "bad.nc")).toOption.map Builder.da_coordinates =
      some B0.da_coordinates :=
  C9_theorem _ B0 "bad.nc" "boom" (by decide) rfl

/-- C1 (falsified, code bug): exporting a loaded builder whose `da_t_index`
is 1 writes `data_array["t_index"] = 1`, but `import_config` looks for the
key `"da_t_index"` (which export never writes) before restoring the index
— and would then call the nonexistent method `set_t_index` — so the
reimported state keeps the `da_t_index = 0` reset by the dataset reload
instead of the exported 1; the other exported fields do round-trip here. -/
theorem C1_theorem :
    ((export_config sLoaded).data_array).map ArrayConfig.t_index =
      some (some 1) ∧
    (import_config envData sLoaded (export_config sLoaded)).toOption.map
      Builder.da_t_index = some 0 ∧
    (import_config envData sLoaded (export_config sLoaded)).toOption.map
      Builder.da_t = some (some "foo") ∧
    (import_config envData sLoaded (export_config sLoaded)).toOption.map
      Builder.da_active = some (some "temp") ∧
    (import_config envData sLoaded (export_config sLoaded)).toOption.map
      Builder.dataset_path = some (some "data.nc") ∧
    sLoaded.da_t_index = 1 := by
  refine ⟨rfl, ?_, ?_, ?_, ?_, rfl⟩ <;> rfl
